import Mathlib

/-! # The `old_way` character driver (`char-driver/examples/old_way-char-driver.c`)

A shallow embedding of the driver module and the properties of its
registration life cycle and of its four file callbacks.

The module owns one `static int num_major`.  Everything else it touches
belongs to the kernel: the log written by `printk`, the character-device
registry behind `register_chrdev` / `unregister_chrdev`, and the user memory a
`char *buf` argument points into.  The kernel side is kept as an explicit
`State` that each driver function receives and returns, together with the
function's C return value.
-/

set_option linter.unusedVariables false

namespace CharDriver

/-! ## Kernel-side data -/

/-- Severity of a `printk` record (`KERN_EMERG` .. `KERN_DEBUG`). -/
inductive LogLevel
  | KERN_EMERG | KERN_ALERT | KERN_CRIT | KERN_ERR
  | KERN_WARNING | KERN_NOTICE | KERN_INFO | KERN_DEBUG
  deriving DecidableEq, Repr

/-- One record of the kernel log: the level prefix and the formatted text. -/
structure LogRecord where
  level : LogLevel
  text : String
  deriving DecidableEq, Repr

/-- Addresses of the four functions of the module, as stored in a callback
table. -/
inductive FnPtr
  | MY_CHAR_open | MY_CHAR_release | MY_CHAR_read | MY_CHAR_write
  deriving DecidableEq, Repr

/-- Modelled from the spec: the declaration of `struct file_operations`
(`linux/fs.h`) is not among the sources.  The entries kept are the four the
driver populates (open, release, read, write) and the ones the specification
lists as expected by the host but not populated (ioctl, mmap, poll, seek,
flush).  As with a C designated initialiser, an entry that is not named is
a null pointer (`none`). -/
structure file_operations where
  llseek : Option FnPtr := none
  read : Option FnPtr := none
  write : Option FnPtr := none
  poll : Option FnPtr := none
  unlocked_ioctl : Option FnPtr := none
  mmap : Option FnPtr := none
  «open» : Option FnPtr := none
  flush : Option FnPtr := none
  release : Option FnPtr := none
  deriving DecidableEq, Repr

/-- What the module does to the kernel, in program order. -/
inductive Event
  | printk (r : LogRecord)
  | register_chrdev (major : Nat) (name : String) (fops : file_operations)
  | unregister_chrdev (major : Int) (name : String)
  deriving DecidableEq, Repr

/-- The state the driver functions run in: the module's `static int
num_major` (zero-initialised at load), the events issued so far, and user
memory (byte at each address), which is where a `char *buf` points. -/
structure State where
  num_major : Int
  trace : List Event
  umem : Nat → Nat

/-- The state right after the module image is loaded, before `module_init`. -/
def State.boot : State := ⟨0, [], fun _ => 0⟩

/-- The host's registration primitive seen from the driver: the `int` it
returns for a given request (a major number, or a negative errno). -/
structure Host where
  chrdev_result : Nat → String → file_operations → Int

/-- The kernel log: the `printk` records of the trace, oldest first. -/
def dmesg (s : State) : List LogRecord :=
  s.trace.filterMap fun e =>
    match e with
    | .printk r => some r
    | _ => none

/-- The calls of `register_chrdev` in the trace, oldest first. -/
def registerCalls (s : State) : List (Nat × String × file_operations) :=
  s.trace.filterMap fun e =>
    match e with
    | .register_chrdev major name fops => some (major, name, fops)
    | _ => none

/-- The calls of `unregister_chrdev` in the trace, oldest first. -/
def unregisterCalls (s : State) : List (Int × String) :=
  s.trace.filterMap fun e =>
    match e with
    | .unregister_chrdev major name => some (major, name)
    | _ => none

/-! ## `printk` formatting -/

/-- The `%d` conversion: signed decimal, a leading `-` for negatives. -/
def fmt_d : Int → String
  | Int.ofNat m => Nat.repr m
  | Int.negSucc m => "-" ++ Nat.repr (m + 1)

/-- A variadic argument of `printk`. -/
inductive Arg
  | d (n : Int)
  | s (str : String)

/-- Expansion of a format string: `%d` and `%s` consume one argument each,
every other character is copied. -/
def vsnprintf : List Char → List Arg → List Char
  | [], _ => []
  | [c], _ => [c]
  | c :: k :: rest, args =>
    if c = '%' then
      match k, args with
      | 'd', Arg.d n :: args' => (fmt_d n).data ++ vsnprintf rest args'
      | 's', Arg.s t :: args' => t.data ++ vsnprintf rest args'
      | _, _ => c :: vsnprintf (k :: rest) args
    else c :: vsnprintf (k :: rest) args

/-- The call `printk(level fmt, args...)`: appends one record to the log. -/
def printk (level : LogLevel) (fmt : String) (args : List Arg) (s : State) : State :=
  { s with trace := s.trace ++ [Event.printk ⟨level, ⟨vsnprintf fmt.data args⟩⟩] }

/-- The call `register_chrdev(major, name, fops)`: recorded in the trace, the
value is the host's. -/
def register_chrdev (host : Host) (major : Nat) (name : String) (fops : file_operations)
    (s : State) : Int × State :=
  (host.chrdev_result major name fops,
   { s with trace := s.trace ++ [Event.register_chrdev major name fops] })

/-- The call `unregister_chrdev(major, name)`, recorded with the value of the
argument expression. -/
def unregister_chrdev (major : Int) (name : String) (s : State) : State :=
  { s with trace := s.trace ++ [Event.unregister_chrdev major name] }

/-! ## Machine integers -/

/-- Conversion of a `size_t` value to `ssize_t` on a machine whose two types
are `w` bits wide: reduction modulo `2^w` into `[-2^(w-1), 2^(w-1))`. -/
def to_ssize_t (w : Nat) (n : Nat) : Int :=
  if n % 2 ^ w < 2 ^ (w - 1) then ((n % 2 ^ w : Nat) : Int)
  else ((n % 2 ^ w : Nat) : Int) - ((2 ^ w : Nat) : Int)

/-! ## The module -/

/-- Source: `#define DEVICE_NAME "MY_CHAR_Device"`. -/
def DEVICE_NAME : String := "MY_CHAR_Device"

/-- Source: `static int MY_CHAR_open(struct inode *inode, struct file *file)`. -/
def MY_CHAR_open (inode file : Nat) (s : State) : Int × State :=
  let s := printk .KERN_INFO "MY_CHAR_open called\n" [] s
  (0, s)

/-- Source: `static int MY_CHAR_release(struct inode *inode, struct file *file)`. -/
def MY_CHAR_release (inode file : Nat) (s : State) : Int × State :=
  let s := printk .KERN_INFO "MY_CHAR_release called\n" [] s
  (0, s)

/-- Source: `static ssize_t MY_CHAR_read(struct file *file, char *buf,
size_t len, loff_t *off)`.  Only `printk` runs; `buf` is never dereferenced. -/
def MY_CHAR_read (file buf len off : Nat) (s : State) : Int × State :=
  let s := printk .KERN_INFO "MY_CHAR_read called\n" [] s
  (0, s)

/-- Source: `static ssize_t MY_CHAR_write(struct file *file, const char *buf,
size_t len, loff_t *off)`.  The statement `return len;` converts the `size_t`
to the `ssize_t` return type. -/
def MY_CHAR_write (w : Nat) (file buf len off : Nat) (s : State) : Int × State :=
  let s := printk .KERN_INFO "MY_CHAR_write called\n" [] s
  (to_ssize_t w len, s)

/-- Source: `static struct file_operations fops`, initialised with `.open`,
`.release`, `.read` and `.write`. -/
def fops : file_operations :=
  { «open» := some .MY_CHAR_open
    release := some .MY_CHAR_release
    read := some .MY_CHAR_read
    write := some .MY_CHAR_write }

/-- Source: `static int __init MY_CHAR_init(void)`.  The format string of the
last `printk` is continued over a line break, so the sixteen blanks that
indent the continuation line are part of it. -/
def MY_CHAR_init (host : Host) (s : State) : Int × State :=
  let s := printk .KERN_INFO "Entering Test Character Driver \n" [] s
  let (r, s) := register_chrdev host 0 DEVICE_NAME fops s
  let s := { s with num_major := r }
  let s := printk .KERN_INFO "Major Number = %d \n" [.d s.num_major] s
  let s := printk .KERN_INFO "Name =  %s \n" [.s DEVICE_NAME] s
  let s := printk .KERN_INFO
    "Generate the device file with                mknod /dev/%s c %d 0 \n"
    [.s DEVICE_NAME, .d s.num_major] s
  (0, s)

/-- Source: `static void __exit MY_CHAR_cleanup(void)`. -/
def MY_CHAR_cleanup (s : State) : State :=
  let s := unregister_chrdev s.num_major DEVICE_NAME s
  printk .KERN_INFO "Exiting Test Character Driver \n" [] s

/-! ## The host's use of the callbacks -/

/-- The persistent entity of the driver: the stored identifier and the
name. -/
structure DeviceRegistration where
  identifier : Int
  name : String
  deriving DecidableEq, Repr

/-- The registration as the state holds it. -/
def registration (s : State) : DeviceRegistration := ⟨s.num_major, DEVICE_NAME⟩

/-- One invocation of a callback by the host, with its arguments. -/
inductive Invocation
  | onOpen (inode file : Nat)
  | onRelease (inode file : Nat)
  | onRead (file buf len off : Nat)
  | onWrite (file buf len off : Nat)
  deriving DecidableEq, Repr

/-- Running one invocation: the callback's effect on the state (the host
keeps the return value to itself). -/
def Invocation.run (w : Nat) : Invocation → State → State
  | .onOpen inode file, s => (MY_CHAR_open inode file s).2
  | .onRelease inode file, s => (MY_CHAR_release inode file s).2
  | .onRead file buf len off, s => (MY_CHAR_read file buf len off s).2
  | .onWrite file buf len off, s => (MY_CHAR_write w file buf len off s).2

/-- Running a finite sequence of invocations, first to last. -/
def runAll (w : Nat) (calls : List Invocation) (s : State) : State :=
  calls.foldl (fun st c => c.run w st) s

/-- A host whose registration primitive answers `r` to every request. -/
def Host.answering (r : Int) : Host := ⟨fun _ _ _ => r⟩

/-- A host that assigns major 4 to an auto-assignment request (requested
identifier 0) under the name "MY_CHAR_Device" and refuses anything else with
`-EINVAL`. -/
def Host.scenarioA : Host :=
  ⟨fun major name _ => if major = 0 ∧ name = "MY_CHAR_Device" then 4 else -22⟩

/-- Whether `needle` occurs in `hay` as a contiguous run of characters. -/
def occursIn (needle hay : String) : Prop := needle.data <:+: hay.data

instance (needle hay : String) : Decidable (occursIn needle hay) := by
  unfold occursIn; infer_instance


/-! ## Auxiliary facts -/

/-- A length below `2^(w-1)` survives the conversion to `ssize_t`. -/
theorem to_ssize_t_of_lt (w n : Nat) (h : n < 2 ^ (w - 1)) : to_ssize_t w n = (n : Int) := by
  have hle : 2 ^ (w - 1) ≤ 2 ^ w := Nat.pow_le_pow_right (by decide) (Nat.sub_le w 1)
  have hmod : n % 2 ^ w = n := Nat.mod_eq_of_lt (lt_of_lt_of_le h hle)
  simp [to_ssize_t, hmod, h]

/-- A representable length of at least `2^(w-1)` comes out `2^w` lower. -/
theorem to_ssize_t_of_ge (w n : Nat) (h1 : 2 ^ (w - 1) ≤ n) (h2 : n < 2 ^ w) :
    to_ssize_t w n = (n : Int) - ((2 ^ w : Nat) : Int) := by
  have hmod : n % 2 ^ w = n := Nat.mod_eq_of_lt h2
  simp [to_ssize_t, hmod, Nat.not_lt.mpr h1]

/-- No callback writes `num_major`. -/
theorem run_num_major (w : Nat) (c : Invocation) (s : State) :
    (c.run w s).num_major = s.num_major := by
  cases c <;> rfl

/-- No callback calls `unregister_chrdev`. -/
theorem run_unregisterCalls (w : Nat) (c : Invocation) (s : State) :
    unregisterCalls (c.run w s) = unregisterCalls s := by
  cases c <;>
    simp [Invocation.run, MY_CHAR_open, MY_CHAR_release, MY_CHAR_read, MY_CHAR_write,
      unregisterCalls, printk, List.filterMap_append]

/-- A sequence of callbacks leaves `num_major` and the list of
`unregister_chrdev` calls as they were. -/
theorem runAll_frame (w : Nat) (calls : List Invocation) (s : State) :
    (runAll w calls s).num_major = s.num_major
      ∧ unregisterCalls (runAll w calls s) = unregisterCalls s := by
  induction calls generalizing s with
  | nil => exact ⟨rfl, rfl⟩
  | cons c cs ih =>
    have h := ih (c.run w s)
    simp only [runAll, List.foldl_cons] at h ⊢
    exact ⟨h.1.trans (run_num_major w c s), h.2.trans (run_unregisterCalls w c s)⟩

/-- The value `MY_CHAR_init` leaves in `num_major` is the one the host
returned, whatever its sign. -/
theorem init_num_major (host : Host) (s : State) :
    (MY_CHAR_init host s).2.num_major = host.chrdev_result 0 DEVICE_NAME fops := rfl

/-- The value `MY_CHAR_init` returns is the constant 0. -/
theorem init_ret (host : Host) (s : State) : (MY_CHAR_init host s).1 = 0 := rfl

/-- The records `MY_CHAR_init` appends to the kernel log, for any value the
host returns. -/
theorem init_dmesg (host : Host) (s : State) :
    dmesg (MY_CHAR_init host s).2 = dmesg s ++
      [⟨.KERN_INFO, "Entering Test Character Driver \n"⟩,
       ⟨.KERN_INFO, "Major Number = " ++ fmt_d (host.chrdev_result 0 DEVICE_NAME fops) ++ " \n"⟩,
       ⟨.KERN_INFO, "Name =  MY_CHAR_Device \n"⟩,
       ⟨.KERN_INFO, "Generate the device file with                mknod /dev/MY_CHAR_Device c "
          ++ fmt_d (host.chrdev_result 0 DEVICE_NAME fops) ++ " 0 \n"⟩] := by
  simp only [dmesg, MY_CHAR_init, printk, register_chrdev, List.filterMap_append,
    List.filterMap_cons, List.filterMap_nil, List.append_assoc, List.append_cancel_left_eq,
    List.cons_append, List.nil_append]
  rfl

/-! ## Write -/

/-- C1 (counterexample).  On a 32-bit machine, `MY_CHAR_write` called with
length `4294967295` (the largest `size_t`) returns `-1`, not the length. -/
theorem MY_CHAR_write_max_len_not_echoed :
    (MY_CHAR_write 32 0 0 4294967295 0 State.boot).1 = -1
      ∧ (MY_CHAR_write 32 0 0 4294967295 0 State.boot).1 ≠ ((4294967295 : Nat) : Int) := by
  decide

/-- C1 (amended).  For every handle, buffer, offset and state, and every length
up to the largest `ssize_t` value `2^(w-1) - 1` (0 included), `MY_CHAR_write`
returns exactly the length; and for every length whatsoever, above that bound
too, the value returned is the same whatever the handle, the buffer pointer,
the offset and the state (hence the contents and size of the buffer) are. -/
theorem MY_CHAR_write_returns_len (w file buf len off : Nat) (s : State) :
    (len < 2 ^ (w - 1) → (MY_CHAR_write w file buf len off s).1 = (len : Int))
      ∧ ∀ (file' buf' off' : Nat) (s' : State),
          (MY_CHAR_write w file' buf' len off' s').1 = (MY_CHAR_write w file buf len off s).1 :=
  ⟨fun hlen => to_ssize_t_of_lt w len hlen, fun _ _ _ _ => rfl⟩

/-- C1 (witness).  `onWrite(handle, buf, 2, 0)` returns 2 on a 64-bit machine,
for any other handle, buffer, offset and state as well; and on a 32-bit
machine the result for length `4294967295`, above the largest `ssize_t`, does
not depend on them either. -/
theorem MY_CHAR_write_returns_len_witness :
    2 < 2 ^ (64 - 1)
      ∧ (MY_CHAR_write 64 7 4096 2 0 State.boot).1 = ((2 : Nat) : Int)
      ∧ (∀ (file' buf' off' : Nat) (s' : State),
          (MY_CHAR_write 64 file' buf' 2 off' s').1
            = (MY_CHAR_write 64 7 4096 2 0 State.boot).1)
      ∧ ¬ 4294967295 < 2 ^ (32 - 1)
      ∧ (∀ (file' buf' off' : Nat) (s' : State),
          (MY_CHAR_write 32 file' buf' 4294967295 off' s').1
            = (MY_CHAR_write 32 7 4096 4294967295 0 State.boot).1) :=
  ⟨by decide,
    (MY_CHAR_write_returns_len 64 7 4096 2 0 State.boot).1 (by decide),
    (MY_CHAR_write_returns_len 64 7 4096 2 0 State.boot).2,
    by decide,
    (MY_CHAR_write_returns_len 32 7 4096 4294967295 0 State.boot).2⟩

/-- C7 (counterexample).  On a 64-bit machine the length `2^63`, which is
representable in `size_t`, makes `MY_CHAR_write` return `-2^63`: a negative
value, below the length. -/
theorem MY_CHAR_write_negative_result :
    9223372036854775808 < 2 ^ 64
      ∧ (MY_CHAR_write 64 0 0 9223372036854775808 0 State.boot).1 = -9223372036854775808
      ∧ (MY_CHAR_write 64 0 0 9223372036854775808 0 State.boot).1 < 0
      ∧ (MY_CHAR_write 64 0 0 9223372036854775808 0 State.boot).1
          < ((9223372036854775808 : Nat) : Int) := by
  decide

/-- C7 (amended).  For a length representable in `size_t`, the signed result of
`MY_CHAR_write` is neither negative nor less than the length exactly when
the length does not exceed the largest `ssize_t` value `2^(w-1) - 1`; above
that it is negative. -/
theorem MY_CHAR_write_result_sign (w file buf len off : Nat) (s : State)
    (hlen : len < 2 ^ w) :
    (0 ≤ (MY_CHAR_write w file buf len off s).1
        ∧ (len : Int) ≤ (MY_CHAR_write w file buf len off s).1 ↔ len < 2 ^ (w - 1))
      ∧ (2 ^ (w - 1) ≤ len → (MY_CHAR_write w file buf len off s).1 < 0) := by
  have hneg : 2 ^ (w - 1) ≤ len → (MY_CHAR_write w file buf len off s).1 < 0 := by
    intro hge
    show to_ssize_t w len < 0
    rw [to_ssize_t_of_ge w len hge hlen]
    have : (len : Int) < ((2 ^ w : Nat) : Int) := by exact_mod_cast hlen
    omega
  refine ⟨⟨fun h => ?_, fun h => ?_⟩, hneg⟩
  · by_contra hcon
    have := hneg (Nat.not_lt.mp hcon)
    omega
  · show 0 ≤ to_ssize_t w len ∧ (len : Int) ≤ to_ssize_t w len
    rw [to_ssize_t_of_lt w len h]
    exact ⟨Int.ofNat_nonneg len, le_refl _⟩

/-- C7 (witness).  Length 2 on a 64-bit machine. -/
theorem MY_CHAR_write_result_sign_witness :
    2 < 2 ^ 64
      ∧ ((0 ≤ (MY_CHAR_write 64 7 4096 2 0 State.boot).1
            ∧ ((2 : Nat) : Int) ≤ (MY_CHAR_write 64 7 4096 2 0 State.boot).1
            ↔ 2 < 2 ^ (64 - 1))
        ∧ (2 ^ (64 - 1) ≤ 2 → (MY_CHAR_write 64 7 4096 2 0 State.boot).1 < 0)) :=
  ⟨by decide, MY_CHAR_write_result_sign 64 7 4096 2 0 State.boot (by decide)⟩

/-! ## Read, open, release -/

/-- C2.  For every handle, buffer, length, offset and state, `MY_CHAR_read`
returns 0 and user memory after the call is user memory before the call: no
byte of the buffer (nor any other byte) is written.  Instance:
`onRead(handle, buf, 128, 0)` returns 0 with `buf` unchanged. -/
theorem MY_CHAR_read_zero_buffer_unchanged (file buf len off : Nat) (s : State) :
    (MY_CHAR_read file buf len off s).1 = 0
      ∧ (MY_CHAR_read file buf len off s).2.umem = s.umem
      ∧ (∀ i : Nat, (MY_CHAR_read file buf len off s).2.umem (buf + i) = s.umem (buf + i))
      ∧ (MY_CHAR_read file buf 128 0 s).1 = 0
      ∧ (MY_CHAR_read file buf 128 0 s).2.umem = s.umem :=
  ⟨rfl, rfl, fun _ => rfl, rfl, rfl⟩

/-- C6.  For every input and every state, `MY_CHAR_open` and
`MY_CHAR_release` return 0 and leave the registration (stored identifier and
name) exactly as it was. -/
theorem MY_CHAR_open_release_succeed_frame (inode file : Nat) (s : State) :
    (MY_CHAR_open inode file s).1 = 0
      ∧ registration (MY_CHAR_open inode file s).2 = registration s
      ∧ (MY_CHAR_open inode file s).2.num_major = s.num_major
      ∧ (MY_CHAR_release inode file s).1 = 0
      ∧ registration (MY_CHAR_release inode file s).2 = registration s
      ∧ (MY_CHAR_release inode file s).2.num_major = s.num_major :=
  ⟨rfl, rfl, rfl, rfl, rfl, rfl⟩

/-! ## Initialisation -/

/-- C3 (counterexample).  With a registration primitive that returns `-1`,
`MY_CHAR_init` run from the boot state returns 0 (success) and leaves `-1`
in `num_major`. -/
theorem MY_CHAR_init_failure_not_signalled :
    (Host.answering (-1)).chrdev_result 0 DEVICE_NAME fops < 0
      ∧ (MY_CHAR_init (Host.answering (-1)) State.boot).1 = 0
      ∧ (MY_CHAR_init (Host.answering (-1)) State.boot).2.num_major = -1 := by
  decide

/-- C3 (amended).  Whenever the registration primitive returns a negative
value, `MY_CHAR_init` does not check it: it returns 0 (success) to its host
and the negative value is what it leaves in `num_major`. -/
theorem MY_CHAR_init_negative_reports_success (host : Host) (s : State)
    (h : host.chrdev_result 0 DEVICE_NAME fops < 0) :
    (MY_CHAR_init host s).1 = 0
      ∧ (MY_CHAR_init host s).2.num_major = host.chrdev_result 0 DEVICE_NAME fops
      ∧ (MY_CHAR_init host s).2.num_major < 0 :=
  ⟨init_ret host s, init_num_major host s, (init_num_major host s).symm ▸ h⟩

/-- C3 (witness).  A host that answers `-22` (`-EINVAL`). -/
theorem MY_CHAR_init_negative_reports_success_witness :
    (Host.answering (-22)).chrdev_result 0 DEVICE_NAME fops < 0
      ∧ ((MY_CHAR_init (Host.answering (-22)) State.boot).1 = 0
        ∧ (MY_CHAR_init (Host.answering (-22)) State.boot).2.num_major
            = (Host.answering (-22)).chrdev_result 0 DEVICE_NAME fops
        ∧ (MY_CHAR_init (Host.answering (-22)) State.boot).2.num_major < 0) :=
  ⟨by decide,
    MY_CHAR_init_negative_reports_success (Host.answering (-22)) State.boot (by decide)⟩

/-- C4.  For every non-negative value `r` the registration primitive returns
for the request `(0, "MY_CHAR_Device", fops)`, `num_major` after
`MY_CHAR_init` equals `r`, whatever it held before. -/
theorem MY_CHAR_init_stores_returned (host : Host) (s : State) (r : Int)
    (hr : host.chrdev_result 0 "MY_CHAR_Device" fops = r) (h : 0 ≤ r) :
    (MY_CHAR_init host s).2.num_major = r :=
  (init_num_major host s).trans hr

/-- C4 (witness).  The primitive returns 4 for requested identifier 0 and name
"MY_CHAR_Device"; the stored identifier is 4. -/
theorem MY_CHAR_init_stores_returned_witness :
    Host.scenarioA.chrdev_result 0 "MY_CHAR_Device" fops = 4 ∧ (0 : Int) ≤ 4
      ∧ (MY_CHAR_init Host.scenarioA State.boot).2.num_major = 4 :=
  ⟨by decide, by decide,
    MY_CHAR_init_stores_returned Host.scenarioA State.boot 4 (by decide) (by decide)⟩

/-- C8.  `MY_CHAR_init` calls `register_chrdev` exactly once: the calls in the
trace after it are those before it plus the one call with requested
identifier 0, the name "MY_CHAR_Device" and the table `fops`; in `fops` the
entries open, release, read and write hold `MY_CHAR_open`, `MY_CHAR_release`,
`MY_CHAR_read` and `MY_CHAR_write`, and every other entry is unset. -/
theorem MY_CHAR_init_registers_once (host : Host) (s : State) :
    registerCalls (MY_CHAR_init host s).2 = registerCalls s ++ [(0, "MY_CHAR_Device", fops)]
      ∧ fops.«open» = some FnPtr.MY_CHAR_open
      ∧ fops.release = some FnPtr.MY_CHAR_release
      ∧ fops.read = some FnPtr.MY_CHAR_read
      ∧ fops.write = some FnPtr.MY_CHAR_write
      ∧ fops.llseek = none ∧ fops.poll = none ∧ fops.unlocked_ioctl = none
      ∧ fops.mmap = none ∧ fops.flush = none := by
  refine ⟨?_, rfl, rfl, rfl, rfl, rfl, rfl, rfl, rfl, rfl⟩
  simp only [registerCalls, MY_CHAR_init, printk, register_chrdev, List.filterMap_append,
    List.filterMap_cons, List.filterMap_nil, List.append_nil, List.nil_append]
  rfl

/-- C9 (counterexample).  With a registration primitive that returns `-1`,
the log `MY_CHAR_init` produces from the boot state holds the identifier
announcement and the `mknod` instruction. -/
theorem MY_CHAR_init_failure_still_announces :
    (Host.answering (-1)).chrdev_result 0 DEVICE_NAME fops = -1
      ∧ dmesg (MY_CHAR_init (Host.answering (-1)) State.boot).2 =
          [⟨.KERN_INFO, "Entering Test Character Driver \n"⟩,
           ⟨.KERN_INFO, "Major Number = -1 \n"⟩,
           ⟨.KERN_INFO, "Name =  MY_CHAR_Device \n"⟩,
           ⟨.KERN_INFO,
            "Generate the device file with                mknod /dev/MY_CHAR_Device c -1 0 \n"⟩]
      ∧ (∃ rec ∈ dmesg (MY_CHAR_init (Host.answering (-1)) State.boot).2,
          occursIn "Major Number = -1" rec.text)
      ∧ (∃ rec ∈ dmesg (MY_CHAR_init (Host.answering (-1)) State.boot).2,
          occursIn "mknod /dev/MY_CHAR_Device c -1 0" rec.text) := by
  decide

/-- C9 (amended).  Whenever the registration primitive returns a negative
value `r`, `MY_CHAR_init` appends the same four informational records as
for any other value: the start announcement, "Major Number = r", the device
name, and the `mknod` instruction carrying `r`, where `r` is printed as a
signed decimal. -/
theorem MY_CHAR_init_log_on_failure (host : Host) (s : State) (r : Int)
    (hr : host.chrdev_result 0 "MY_CHAR_Device" fops = r) (h : r < 0) :
    dmesg (MY_CHAR_init host s).2 = dmesg s ++
      [⟨.KERN_INFO, "Entering Test Character Driver \n"⟩,
       ⟨.KERN_INFO, "Major Number = " ++ fmt_d r ++ " \n"⟩,
       ⟨.KERN_INFO, "Name =  MY_CHAR_Device \n"⟩,
       ⟨.KERN_INFO, "Generate the device file with                mknod /dev/MY_CHAR_Device c "
          ++ fmt_d r ++ " 0 \n"⟩]
      ∧ fmt_d r = "-" ++ Nat.repr r.natAbs := by
  refine ⟨hr ▸ init_dmesg host s, ?_⟩
  cases r with
  | ofNat m => exact absurd h (by simp)
  | negSucc m => rfl

/-- C9 (witness).  A host that answers `-16` (`-EBUSY`): the log shows
"Major Number = -16". -/
theorem MY_CHAR_init_log_on_failure_witness :
    (Host.answering (-16)).chrdev_result 0 "MY_CHAR_Device" fops = -16 ∧ (-16 : Int) < 0
      ∧ (dmesg (MY_CHAR_init (Host.answering (-16)) State.boot).2 = dmesg State.boot ++
          [⟨.KERN_INFO, "Entering Test Character Driver \n"⟩,
           ⟨.KERN_INFO, "Major Number = " ++ fmt_d (-16) ++ " \n"⟩,
           ⟨.KERN_INFO, "Name =  MY_CHAR_Device \n"⟩,
           ⟨.KERN_INFO,
            "Generate the device file with                mknod /dev/MY_CHAR_Device c "
              ++ fmt_d (-16) ++ " 0 \n"⟩]
        ∧ fmt_d (-16) = "-" ++ Nat.repr (-16 : Int).natAbs)
      ∧ fmt_d (-16) = "-16" :=
  ⟨by decide, by decide,
    MY_CHAR_init_log_on_failure (Host.answering (-16)) State.boot (-16) (by decide) (by decide),
    by decide⟩

/-- C10.  For every non-negative identifier `r` returned by the registration
primitive, the records `MY_CHAR_init` appends to the log are four, all at
`KERN_INFO`, in this order: the start announcement, a record containing
"Major Number = r", a record containing the device name "MY_CHAR_Device",
and a record containing the command "mknod /dev/MY_CHAR_Device c r 0", with
`r` printed in decimal. -/
theorem MY_CHAR_init_log_on_success (host : Host) (s : State) (r : Int)
    (hr : host.chrdev_result 0 "MY_CHAR_Device" fops = r) (h : 0 ≤ r) :
    ∃ start major name mknod : String,
      dmesg (MY_CHAR_init host s).2 = dmesg s ++
        [⟨.KERN_INFO, start⟩, ⟨.KERN_INFO, major⟩, ⟨.KERN_INFO, name⟩, ⟨.KERN_INFO, mknod⟩]
      ∧ start = "Entering Test Character Driver \n"
      ∧ occursIn ("Major Number = " ++ fmt_d r) major
      ∧ occursIn "MY_CHAR_Device" name
      ∧ occursIn ("mknod /dev/MY_CHAR_Device c " ++ fmt_d r ++ " 0") mknod
      ∧ fmt_d r = Nat.repr r.toNat := by
  refine ⟨_, _, _, _, hr ▸ init_dmesg host s, rfl, ?_, by decide, ?_, ?_⟩
  · exact ⟨[], " \n".data, by simp [String.data_append]⟩
  · refine ⟨"Generate the device file with                ".data, " \n".data, ?_⟩
    simp only [String.data_append, List.append_assoc]
    rfl
  · cases r with
    | ofNat m => rfl
    | negSucc m => exact absurd h (by simp)

/-- C10 (witness).  The primitive returns 4: the log shows
"Major Number = 4". -/
theorem MY_CHAR_init_log_on_success_witness :
    Host.scenarioA.chrdev_result 0 "MY_CHAR_Device" fops = 4 ∧ (0 : Int) ≤ 4
      ∧ (∃ start major name mknod : String,
          dmesg (MY_CHAR_init Host.scenarioA State.boot).2 = dmesg State.boot ++
            [⟨.KERN_INFO, start⟩, ⟨.KERN_INFO, major⟩, ⟨.KERN_INFO, name⟩,
             ⟨.KERN_INFO, mknod⟩]
          ∧ start = "Entering Test Character Driver \n"
          ∧ occursIn ("Major Number = " ++ fmt_d 4) major
          ∧ occursIn "MY_CHAR_Device" name
          ∧ occursIn ("mknod /dev/MY_CHAR_Device c " ++ fmt_d 4 ++ " 0") mknod
          ∧ fmt_d 4 = Nat.repr (4 : Int).toNat)
      ∧ dmesg (MY_CHAR_init Host.scenarioA State.boot).2 =
          [⟨.KERN_INFO, "Entering Test Character Driver \n"⟩,
           ⟨.KERN_INFO, "Major Number = 4 \n"⟩,
           ⟨.KERN_INFO, "Name =  MY_CHAR_Device \n"⟩,
           ⟨.KERN_INFO,
            "Generate the device file with                mknod /dev/MY_CHAR_Device c 4 0 \n"⟩] :=
  ⟨by decide, by decide,
    MY_CHAR_init_log_on_success Host.scenarioA State.boot 4 (by decide) (by decide),
    by decide⟩

/-! ## Teardown -/

/-- C5.  For every initialisation whose registration returned a non-negative
`r`, and every finite sequence of open / release / read / write invocations
that follows it, `MY_CHAR_cleanup` calls `unregister_chrdev` exactly once,
with the pair `(r, "MY_CHAR_Device")`; and no call of `unregister_chrdev` was
issued between the start of `MY_CHAR_init` and the start of
`MY_CHAR_cleanup`. -/
theorem MY_CHAR_cleanup_unregisters_registered (w : Nat) (host : Host) (s : State) (r : Int)
    (calls : List Invocation)
    (hr : host.chrdev_result 0 "MY_CHAR_Device" fops = r) (h : 0 ≤ r) :
    unregisterCalls (MY_CHAR_cleanup (runAll w calls (MY_CHAR_init host s).2))
        = unregisterCalls (runAll w calls (MY_CHAR_init host s).2) ++ [(r, "MY_CHAR_Device")]
      ∧ unregisterCalls (runAll w calls (MY_CHAR_init host s).2) = unregisterCalls s := by
  obtain ⟨hnum, hun⟩ := runAll_frame w calls (MY_CHAR_init host s).2
  constructor
  · have hm : (runAll w calls (MY_CHAR_init host s).2).num_major = r :=
      hnum.trans ((init_num_major host s).trans hr)
    simp only [unregisterCalls, MY_CHAR_cleanup, printk, unregister_chrdev,
      List.filterMap_append, List.filterMap_cons, List.filterMap_nil, List.append_nil, hm]
    rfl
  · rw [hun]
    simp only [unregisterCalls, MY_CHAR_init, printk, register_chrdev, List.filterMap_append,
      List.filterMap_cons, List.filterMap_nil, List.append_nil]

/-- C5 (witness).  Major 4, then two open / release cycles with a write and a
read, then teardown: one call `unregister_chrdev(4, "MY_CHAR_Device")`. -/
theorem MY_CHAR_cleanup_unregisters_registered_witness :
    Host.scenarioA.chrdev_result 0 "MY_CHAR_Device" fops = 4 ∧ (0 : Int) ≤ 4
      ∧ (unregisterCalls (MY_CHAR_cleanup (runAll 64
            [.onOpen 1 7, .onWrite 7 4096 2 0, .onRelease 1 7,
             .onOpen 1 8, .onRead 8 4096 128 0, .onRelease 1 8]
            (MY_CHAR_init Host.scenarioA State.boot).2))
          = unregisterCalls (runAll 64
              [.onOpen 1 7, .onWrite 7 4096 2 0, .onRelease 1 7,
               .onOpen 1 8, .onRead 8 4096 128 0, .onRelease 1 8]
              (MY_CHAR_init Host.scenarioA State.boot).2) ++ [(4, "MY_CHAR_Device")]
        ∧ unregisterCalls (runAll 64
              [.onOpen 1 7, .onWrite 7 4096 2 0, .onRelease 1 7,
               .onOpen 1 8, .onRead 8 4096 128 0, .onRelease 1 8]
              (MY_CHAR_init Host.scenarioA State.boot).2) = unregisterCalls State.boot)
      ∧ unregisterCalls (MY_CHAR_cleanup (runAll 64
            [.onOpen 1 7, .onWrite 7 4096 2 0, .onRelease 1 7,
             .onOpen 1 8, .onRead 8 4096 128 0, .onRelease 1 8]
            (MY_CHAR_init Host.scenarioA State.boot).2)) = [(4, "MY_CHAR_Device")] :=
  ⟨by decide, by decide,
    MY_CHAR_cleanup_unregisters_registered 64 Host.scenarioA State.boot 4 _ (by decide)
      (by decide),
    by decide⟩

end CharDriver
